import Mathlib

/-!
Verification of the stroke-prediction service core (`enhanced_app.py`):
the probability-to-risk-tier mapping, the risk-factor analyzer, the
recommendation generator, the prediction record store append, and the
dashboard aggregation queries.  Numeric values are modelled with `ℚ`.
-/

namespace StrokeApp

/-- A dynamically typed SQLite/JSON value as used for risk-factor values:
either numeric or a string (the smoking status factor stores a string). -/
inductive FVal where
  | num (q : ℚ)
  | str (s : String)
deriving DecidableEq, Repr

/-- One entry of the list built by `calculate_risk_factors`. -/
structure Factor where
  name : String
  value : FVal
  contribution : ℚ
  unit : String
  risk_category : String
deriving DecidableEq, Repr

/-- The input record fields read by `calculate_risk_factors`
(`data.get(...)` on the request JSON). -/
structure InputData where
  age : ℚ
  bmi : ℚ
  avg_glucose_level : ℚ
  hypertension : ℕ
  heart_disease : ℕ
  smoking_status : String
deriving DecidableEq, Repr

/-- `age_risk = max(0, (age - 50) * 0.02) if age > 50 else 0`
(enhanced_app.py line 192). -/
def age_risk (age : ℚ) : ℚ :=
  if age > 50 then max 0 ((age - 50) * (2/100)) else 0

/-- `'High' if age > 65 else 'Medium' if age > 50 else 'Low'`
(enhanced_app.py line 198). -/
def age_category (age : ℚ) : String :=
  if age > 65 then "High" else if age > 50 then "Medium" else "Low"

/-- BMI contribution: `0.15 if bmi > 30 elif bmi > 25 then 0.08 else 0`
(enhanced_app.py lines 203-207). -/
def bmi_risk (bmi : ℚ) : ℚ :=
  if bmi > 30 then 15/100 else if bmi > 25 then 8/100 else 0

/-- `'High' if bmi > 30 else 'Medium' if bmi > 25 else 'Normal'`. -/
def bmi_category (bmi : ℚ) : String :=
  if bmi > 30 then "High" else if bmi > 25 then "Medium" else "Normal"

/-- Glucose contribution: `0.20 if glucose > 140 elif glucose > 100 then 0.10
else 0` (enhanced_app.py lines 218-222). -/
def glucose_risk (glucose : ℚ) : ℚ :=
  if glucose > 140 then 20/100 else if glucose > 100 then 10/100 else 0

/-- `'High' if glucose > 140 else 'Medium' if glucose > 100 else 'Normal'`. -/
def glucose_category (glucose : ℚ) : String :=
  if glucose > 140 then "High" else if glucose > 100 then "Medium" else "Normal"

/-- `calculate_risk_factors(data)` (enhanced_app.py lines 186-264):
six factors appended in a fixed order. -/
def calculate_risk_factors (data : InputData) : List Factor :=
  [ { name := "Age", value := .num data.age, contribution := age_risk data.age,
      unit := "years", risk_category := age_category data.age },
    { name := "BMI", value := .num data.bmi, contribution := bmi_risk data.bmi,
      unit := "kg/mÂ²", risk_category := bmi_category data.bmi },
    { name := "Glucose Level", value := .num data.avg_glucose_level,
      contribution := glucose_risk data.avg_glucose_level,
      unit := "mg/dL", risk_category := glucose_category data.avg_glucose_level },
    { name := "Hypertension", value := .num (data.hypertension : ℚ),
      contribution := if data.hypertension = 1 then 25/100 else 0,
      unit := "Yes/No",
      risk_category := if data.hypertension = 1 then "High" else "Low" },
    { name := "Heart Disease", value := .num (data.heart_disease : ℚ),
      contribution := if data.heart_disease = 1 then 30/100 else 0,
      unit := "Yes/No",
      risk_category := if data.heart_disease = 1 then "High" else "Low" },
    { name := "Smoking Status", value := .str data.smoking_status,
      contribution :=
        if data.smoking_status = "smokes" then 15/100
        else if data.smoking_status = "formerly smoked" then 10/100 else 0,
      unit := "Category",
      risk_category :=
        if data.smoking_status = "smokes" then "High"
        else if data.smoking_status = "formerly smoked" then "Medium"
        else "Low" } ]

/-- The probability-to-risk-tier mapping in `/predict`
(enhanced_app.py lines 1137-1147). -/
def risk_level_of (stroke_prob : ℚ) : String :=
  if stroke_prob < 2/10 then "Very Low"
  else if stroke_prob < 4/10 then "Low"
  else if stroke_prob < 6/10 then "Medium"
  else if stroke_prob < 8/10 then "High"
  else "Very High"

/-- Python truth test of a comparison `factor['value'] > q` for a
dynamically typed value; it only succeeds on a numeric value
(the branches guarded by it are only reached with numeric values). -/
def FVal.gtNum (v : FVal) (q : ℚ) : Bool :=
  match v with
  | .num x => decide (q < x)
  | .str _ => false

/-- Python membership test `factor['value'] in [...]` on a string list. -/
def FVal.inStrs (v : FVal) (l : List String) : Bool :=
  match v with
  | .num _ => false
  | .str s => l.contains s

/-- One iteration of the `for factor in risk_factors` loop of
`get_recommendations` (enhanced_app.py lines 1201-1208). -/
def recommendation_step (acc : List String) (f : Factor) : List String :=
  if f.contribution > 1/10 then
    if f.name = "BMI" ∧ f.value.gtNum 25 then
      acc ++ ["Weight management program"]
    else if f.name = "Glucose Level" ∧ f.value.gtNum 100 then
      acc ++ ["Diabetes screening and management"]
    else if f.name = "Smoking Status" ∧ f.value.inStrs ["smokes", "formerly smoked"] then
      acc ++ ["Smoking cessation support"]
    else acc
  else acc

/-- `get_recommendations(stroke_prob, risk_factors)`
(enhanced_app.py lines 1192-1214). -/
def get_recommendations (stroke_prob : ℚ) (risk_factors : List Factor) :
    List String :=
  let recs : List String :=
    if stroke_prob > 4/10 then
      ["Regular blood pressure monitoring", "Annual health checkups"]
    else []
  let recs := risk_factors.foldl recommendation_step recs
  let recs :=
    if recs = [] then
      ["Maintain current healthy lifestyle", "Regular exercise and balanced diet"]
    else recs
  recs.take 5

/-! ### The prediction record store (`save_prediction_to_db`, schema) -/

/-- A flattened row of the `predictions` table (enhanced_app.py lines 34-56).
`bmi` is nullable. -/
structure PredRow where
  patient_id : String
  timestamp : String
  gender : String
  age : ℚ
  hypertension : ℕ
  heart_disease : ℕ
  ever_married : String
  work_type : String
  residence_type : String
  avg_glucose_level : ℚ
  bmi : Option ℚ
  smoking_status : String
  prediction : ℕ
  stroke_probability : ℚ
  no_stroke_probability : ℚ
  risk_level : String
  confidence : ℚ
  notes : String
deriving DecidableEq, Repr

/-- A row of the `risk_factors` table (enhanced_app.py lines 59-68). -/
structure FactorRow where
  prediction_id : ℕ
  factor_name : String
  factor_value : FVal
  contribution : ℚ
deriving DecidableEq, Repr

/-- The SQLite database state: committed rows of the two tables plus
the next auto-increment id of `predictions`. -/
structure DB where
  predictions : List (ℕ × PredRow)
  risk_factors : List FactorRow
  next_id : ℕ
deriving DecidableEq, Repr

/-- The child-row insert loop of `save_prediction_to_db`
(enhanced_app.py lines 169-174), executed inside the open transaction.
`childOk i` says whether the i-th `INSERT INTO risk_factors` statement
succeeds; any failing insert raises, aborting the whole attempt (`none`). -/
def insert_factor_rows (pid : ℕ) : List Factor → (ℕ → Bool) → ℕ →
    Option (List FactorRow)
  | [], _, _ => some []
  | f :: fs, childOk, k =>
    if childOk k then
      match insert_factor_rows pid fs childOk (k + 1) with
      | some rest =>
        some ({ prediction_id := pid, factor_name := f.name,
                factor_value := f.value, contribution := f.contribution } :: rest)
      | none => none
    else none

/-- `save_prediction_to_db(data, result)` (enhanced_app.py lines 128-184).
All inserts run in one implicit transaction committed only at line 176;
on any raised error the `except` branch returns `(None, None)` and the
uncommitted transaction is discarded, leaving the database unchanged.
`parentOk` / `childOk` inject the outcome of each individual INSERT. -/
def save_prediction_to_db (db : DB) (parentOk : Bool) (childOk : ℕ → Bool)
    (row : PredRow) (factors : List Factor) :
    DB × Option ℕ × Option String :=
  if parentOk then
    match insert_factor_rows db.next_id factors childOk 0 with
    | some rows =>
      ({ predictions := db.predictions ++ [(db.next_id, row)],
         risk_factors := db.risk_factors ++ rows,
         next_id := db.next_id + 1 }, some db.next_id, some row.patient_id)
    | none => (db, none, none)
  else (db, none, none)

/-- The database-related fields attached to the `/predict` response
(enhanced_app.py lines 1164-1173); `none` models an absent JSON key. -/
structure DbInfo where
  prediction_id : Option ℕ
  patient_id : Option String
  saved_to_database : Option Bool
deriving DecidableEq, Repr

/-- The tail of the `/predict` handler (enhanced_app.py lines 1164-1173):
save to the database, then add `prediction_id` / `patient_id` /
`saved_to_database` to the result only when `prediction_id` is truthy.
The response is returned in every case. -/
def predict_db_step (db : DB) (parentOk : Bool) (childOk : ℕ → Bool)
    (row : PredRow) (factors : List Factor) : DB × DbInfo :=
  match save_prediction_to_db db parentOk childOk row factors with
  | (db2, some pid, patid) =>
    if pid ≠ 0 then (db2, ⟨some pid, patid, some true⟩)
    else (db2, ⟨none, none, none⟩)
  | (db2, none, _) => (db2, ⟨none, none, none⟩)

/-! ### Dashboard aggregation (`get_dashboard_data`) -/

/-- Round-half-to-even to an integer, the rounding mode of Python `round`. -/
def roundHalfEven (x : ℚ) : ℤ :=
  if x - ⌊x⌋ < 1/2 then ⌊x⌋
  else if 1/2 < x - ⌊x⌋ then ⌊x⌋ + 1
  else if ⌊x⌋ % 2 = 0 then ⌊x⌋ else ⌊x⌋ + 1

/-- Python `round(x, 2)`: round to two decimal places, half to even. -/
def pyRound2 (x : ℚ) : ℚ := (roundHalfEven (x * 100) : ℚ) / 100

/-- `SELECT COUNT(*) FROM predictions` (enhanced_app.py line 922). -/
def total_predictions (rows : List PredRow) : ℕ := rows.length

/-- The per-gender count of the dict built from
`SELECT gender, COUNT(*) FROM predictions GROUP BY gender`
(enhanced_app.py line 926). -/
def gender_distribution (rows : List PredRow) (g : String) : ℕ :=
  rows.countP (fun r => r.gender == g)

/-- `risk_level IN ('High', 'Very High')`. -/
def isHighLevel (r : PredRow) : Bool :=
  r.risk_level == "High" || r.risk_level == "Very High"

/-- `SELECT COUNT(*) FROM predictions WHERE risk_level IN ('High','Very High')
AND stroke_probability > 0.5` (enhanced_app.py lines 934-939). -/
def high_risk_patients (rows : List PredRow) : ℕ :=
  rows.countP (fun r => isHighLevel r && decide ((1:ℚ)/2 < r.stroke_probability))

/-- The SQL `CASE` bucketing ages for `age_distribution`
(enhanced_app.py lines 954-959). -/
def ageGroup (a : ℚ) : String :=
  if a < 30 then "Under 30"
  else if a < 50 then "30-49"
  else if a < 65 then "50-64"
  else "65+"

/-- The `ORDER BY CASE age_group ...` sort key (enhanced_app.py lines 963-969). -/
def ageGroupOrder (g : String) : ℕ :=
  if g = "Under 30" then 1
  else if g = "30-49" then 2
  else if g = "50-64" then 3
  else 4

/-- The `age_distribution` query (enhanced_app.py lines 952-971):
`GROUP BY age_group` yields one row per bucket that occurs, and
`ORDER BY CASE age_group ...` lists them in defined bucket order. -/
def age_distribution (rows : List PredRow) : List (String × ℕ) :=
  (["Under 30", "30-49", "50-64", "65+"].map
    (fun g => (g, rows.countP (fun r => ageGroup r.age == g)))).filter
    (fun p => p.2 != 0)

/-- `COUNT(*) ... WHERE gender = ?` of the gender-risk query
(enhanced_app.py lines 1005-1011). -/
def gender_total (rows : List PredRow) (g : String) : ℕ :=
  (rows.filter (fun r => r.gender == g)).length

/-- `SUM(CASE WHEN risk_level IN ('High','Very High') THEN 1 ELSE 0 END)
... WHERE gender = ?` (enhanced_app.py lines 1005-1011): note there is no
`stroke_probability` condition here. -/
def gender_high_risk (rows : List PredRow) (g : String) : ℕ :=
  ((rows.filter (fun r => r.gender == g)).map
    (fun r => if isHighLevel r then 1 else 0)).sum

/-- One entry of `gender_risk_stats` (enhanced_app.py lines 1013-1034). -/
structure GenderStats where
  total : ℕ
  high_risk : ℕ
  risk_percentage : ℚ
deriving DecidableEq, Repr

/-- The per-gender statistics (enhanced_app.py lines 1013-1034):
`risk_percentage = (high_risk / total) * 100` when both counts are
positive, else `0`, stored as `round(risk_percentage, 2)`. -/
def gender_stats_for (rows : List PredRow) (g : String) : GenderStats :=
  { total := gender_total rows g,
    high_risk := gender_high_risk rows g,
    risk_percentage := pyRound2
      (if 0 < gender_total rows g then
        (if 0 < gender_high_risk rows g then
          ((gender_high_risk rows g : ℚ) / (gender_total rows g : ℚ)) * 100
        else 0)
      else 0) }

/-- `gender_risk_stats`: the loop `for gender in ['Male', 'Female']`
(enhanced_app.py lines 1003-1034) builds a dict keyed by exactly these
two genders. -/
def gender_risk_stats (rows : List PredRow) : List (String × GenderStats) :=
  [("Male", gender_stats_for rows "Male"), ("Female", gender_stats_for rows "Female")]

/-- Replace each row's `stroke_probability` by applying `f`; used to state
that a query does not depend on the stored probabilities. -/
def mapProb (f : ℚ → ℚ) (r : PredRow) : PredRow :=
  { r with stroke_probability := f r.stroke_probability }

/-! ### General helper lemmas -/

/-- A strict version of `List.countP_mono_left`: if `p` implies `q` on the
list and some member satisfies `q` but not `p`, the `p`-count is strictly
smaller. -/
theorem countP_lt_countP {α : Type} (l : List α) (p q : α → Bool)
    (himp : ∀ x ∈ l, p x = true → q x = true)
    (a : α) (ha : a ∈ l) (hq : q a = true) (hp : p a = false) :
    l.countP p < l.countP q := by
  induction l with
  | nil => simp at ha
  | cons b l ih =>
    rcases List.mem_cons.mp ha with hb | hmem
    · subst hb
      have hle : l.countP p ≤ l.countP q :=
        List.countP_mono_left (fun x hx => himp x (List.mem_cons_of_mem _ hx))
      rw [List.countP_cons, List.countP_cons, hp, hq]
      simp
      omega
    · have hlt : l.countP p < l.countP q :=
        ih (fun x hx => himp x (List.mem_cons_of_mem _ hx)) hmem
      rw [List.countP_cons, List.countP_cons]
      by_cases hpb : p b = true
      · have hqb := himp b (List.mem_cons_self _ _) hpb
        rw [hpb, hqb]
        simpa using hlt
      · rw [Bool.not_eq_true] at hpb
        rw [hpb]
        simp only [Bool.false_eq_true, if_false, add_zero]
        split <;> omega

/-- Summing an if-then-else indicator over a list equals `countP`. -/
theorem sum_map_ite_eq_countP {α : Type} (l : List α) (p : α → Bool) :
    (l.map (fun x => if p x then (1 : ℕ) else 0)).sum = l.countP p := by
  induction l with
  | nil => rfl
  | cons b l ih =>
    rw [List.map_cons, List.sum_cons, List.countP_cons, ih]
    split <;> omega

/-- `roundHalfEven` never rounds below the floor. -/
theorem roundHalfEven_cases (x : ℚ) :
    roundHalfEven x = ⌊x⌋ ∨ roundHalfEven x = ⌊x⌋ + 1 := by
  unfold roundHalfEven
  split_ifs <;> simp

/-- Rounding a nonnegative rational half-to-even is nonnegative. -/
theorem roundHalfEven_nonneg (x : ℚ) (hx : 0 ≤ x) : 0 ≤ roundHalfEven x := by
  have hf : (0 : ℤ) ≤ ⌊x⌋ := Int.floor_nonneg.mpr hx
  rcases roundHalfEven_cases x with h | h <;> omega

/-- Rounding half-to-even never exceeds an integer upper bound. -/
theorem roundHalfEven_le (x : ℚ) (n : ℤ) (hx : x ≤ (n : ℚ)) :
    roundHalfEven x ≤ n := by
  have hfl : ⌊x⌋ ≤ n := by
    calc ⌊x⌋ ≤ ⌊(n : ℚ)⌋ := Int.floor_le_floor hx
    _ = n := Int.floor_intCast n
  rcases roundHalfEven_cases x with h | h
  · omega
  · by_contra hgt
    push_neg at hgt
    have heq : ⌊x⌋ = n := by omega
    have hhalf : 1/2 ≤ x - (⌊x⌋ : ℚ) := by
      unfold roundHalfEven at h
      split_ifs at h with h1 h2 h3
      · omega
      · linarith
      · linarith
      · linarith
    rw [heq] at hhalf
    linarith

/-- `pyRound2` of `0` is `0`. -/
theorem pyRound2_zero : pyRound2 0 = 0 := by
  unfold pyRound2 roundHalfEven
  norm_num

/-- `pyRound2` preserves nonnegativity. -/
theorem pyRound2_nonneg (x : ℚ) (hx : 0 ≤ x) : 0 ≤ pyRound2 x := by
  unfold pyRound2
  have := roundHalfEven_nonneg (x * 100) (by linarith)
  positivity

/-- `pyRound2` respects the upper bound `100`. -/
theorem pyRound2_le_100 (x : ℚ) (hx : x ≤ 100) : pyRound2 x ≤ 100 := by
  unfold pyRound2
  have h := roundHalfEven_le (x * 100) 10000 (by push_cast; linarith)
  have : ((roundHalfEven (x * 100) : ℤ) : ℚ) ≤ 10000 := by exact_mod_cast h
  linarith

/-! ### Claim theorems -/

/-- C1: for every probability `p ∈ [0,1]` the probability-to-risk-tier
mapping of `/predict` assigns exactly one of the five tiers, partitioning
`[0,1]` without gaps or overlaps: Very Low for `p < 0.2`, Low on
`[0.2, 0.4)`, Medium on `[0.4, 0.6)`, High on `[0.6, 0.8)`, Very High
for `p ≥ 0.8`. -/
theorem risk_level_of_partition (p : ℚ) (h0 : 0 ≤ p) (h1 : p ≤ 1) :
    risk_level_of p ∈ ["Very Low", "Low", "Medium", "High", "Very High"] ∧
    (risk_level_of p = "Very Low" ↔ p < 2/10) ∧
    (risk_level_of p = "Low" ↔ 2/10 ≤ p ∧ p < 4/10) ∧
    (risk_level_of p = "Medium" ↔ 4/10 ≤ p ∧ p < 6/10) ∧
    (risk_level_of p = "High" ↔ 6/10 ≤ p ∧ p < 8/10) ∧
    (risk_level_of p = "Very High" ↔ 8/10 ≤ p) := by
  unfold risk_level_of
  split_ifs with ha hb hc hd <;>
    refine ⟨by simp, ?_, ?_, ?_, ?_, ?_⟩ <;> simp
  all_goals
    first
    | linarith
    | (constructor <;> linarith)
    | (intro hx; linarith)

/-- C1 witness: the theorem applied at the concrete probability `1/2`. -/
theorem risk_level_of_partition_witness :
    risk_level_of (1/2) = "Medium" ∧ (4/10 : ℚ) ≤ 1/2 ∧ (1/2 : ℚ) < 6/10 :=
  ⟨((risk_level_of_partition (1/2) (by norm_num) (by norm_num)).2.2.2.1).mpr
      ⟨by norm_num, by norm_num⟩,
    by norm_num, by norm_num⟩

/-- C4: for every input record, `calculate_risk_factors` returns exactly
six factors in the fixed order Age, BMI, Glucose Level, Hypertension,
Heart Disease, Smoking Status; on the record `age=70, bmi=32,
avg_glucose_level=150, hypertension=1, heart_disease=0,
smoking_status="smokes"` it yields Age High 0.40, BMI High 0.15, Glucose
High 0.20, Hypertension High 0.25, Heart Disease Low 0, Smoking High 0.15. -/
theorem calculate_risk_factors_order_and_scenario :
    (∀ d : InputData,
      (calculate_risk_factors d).length = 6 ∧
      (calculate_risk_factors d).map Factor.name =
        ["Age", "BMI", "Glucose Level", "Hypertension", "Heart Disease",
         "Smoking Status"]) ∧
    (calculate_risk_factors
        { age := 70, bmi := 32, avg_glucose_level := 150, hypertension := 1,
          heart_disease := 0, smoking_status := "smokes" }).map
        (fun f => (f.name, f.risk_category, f.contribution)) =
      [("Age", "High", 40/100), ("BMI", "High", 15/100),
       ("Glucose Level", "High", 20/100), ("Hypertension", "High", 25/100),
       ("Heart Disease", "Low", 0), ("Smoking Status", "High", 15/100)] := by
  constructor
  · intro d
    constructor <;> simp [calculate_risk_factors]
  · norm_num [calculate_risk_factors, age_risk, age_category, bmi_risk,
      bmi_category, glucose_risk, glucose_category, max_def]

/-- C5: the Age factor of `calculate_risk_factors` has category High iff
`a > 65`, Medium iff `50 < a ≤ 65`, Low otherwise; its contribution is
`max(0, (a-50)*0.02)` for `a > 50` and `0` for `a ≤ 50`, hence zero on
`(-∞, 50]` and monotonically non-decreasing on `(50, ∞)`. -/
theorem age_factor_spec :
    (∀ d : InputData, (calculate_risk_factors d).head? =
      some { name := "Age", value := .num d.age, contribution := age_risk d.age,
             unit := "years", risk_category := age_category d.age }) ∧
    (∀ a : ℚ,
      (age_category a = "High" ↔ 65 < a) ∧
      (age_category a = "Medium" ↔ 50 < a ∧ a ≤ 65) ∧
      (age_category a = "Low" ↔ a ≤ 50) ∧
      (50 < a → age_risk a = max 0 ((a - 50) * (2/100))) ∧
      (a ≤ 50 → age_risk a = 0)) ∧
    (∀ a b : ℚ, 50 < a → a ≤ b → age_risk a ≤ age_risk b) := by
  refine ⟨fun d => rfl, fun a => ?_, fun a b ha hab => ?_⟩
  · unfold age_category age_risk
    split_ifs with h1 h2 <;>
      refine ⟨?_, ?_, ?_, ?_, ?_⟩ <;> simp <;>
      first
      | linarith
      | (constructor <;> linarith)
      | (intro hx; linarith)
  · have hb : 50 < b := lt_of_lt_of_le ha hab
    unfold age_risk
    rw [if_pos ha, if_pos hb]
    exact max_le_max le_rfl (by linarith)

/-- C5 witness: the theorem applied at concrete ages 40, 60, 70. -/
theorem age_factor_spec_witness :
    ((50 : ℚ) < 60 ∧ (60 : ℚ) ≤ 70 ∧ age_risk 60 ≤ age_risk 70) ∧
    ((70 : ℚ) ≤ 70 ∧ (50 : ℚ) < 70 → True) ∧
    age_risk 40 = 0 ∧ (age_category 70 = "High" ↔ (65 : ℚ) < 70) :=
  ⟨⟨by norm_num, by norm_num,
      age_factor_spec.2.2 60 70 (by norm_num) (by norm_num)⟩,
    fun _ => trivial,
    (age_factor_spec.2.1 40).2.2.2.2 (by norm_num),
    (age_factor_spec.2.1 70).1⟩

/-- The factor loop of `get_recommendations` adds nothing when every
contribution is at most `0.1`. -/
theorem foldl_recommendation_step_small (fs : List Factor) (acc : List String)
    (h : ∀ f ∈ fs, f.contribution ≤ 1/10) :
    fs.foldl recommendation_step acc = acc := by
  induction fs generalizing acc with
  | nil => rfl
  | cons f fs ih =>
    have hf : ¬(f.contribution > 1/10) := not_lt.mpr (h f (List.mem_cons_self _ _))
    rw [List.foldl_cons]
    rw [show recommendation_step acc f = acc from by
      unfold recommendation_step; rw [if_neg hf]]
    exact ih acc (fun x hx => h x (List.mem_cons_of_mem _ hx))

/-- C8: for every stroke probability and risk-factor list,
`get_recommendations` returns between 1 and 5 recommendations; when no
rule fires (probability at most `0.4` and every contribution at most
`0.1`) it returns the universal fallback pair. -/
theorem get_recommendations_spec (stroke_prob : ℚ) (fs : List Factor) :
    1 ≤ (get_recommendations stroke_prob fs).length ∧
    (get_recommendations stroke_prob fs).length ≤ 5 ∧
    (stroke_prob ≤ 4/10 → (∀ f ∈ fs, f.contribution ≤ 1/10) →
      get_recommendations stroke_prob fs =
        ["Maintain current healthy lifestyle",
         "Regular exercise and balanced diet"]) := by
  refine ⟨?_, ?_, ?_⟩
  · unfold get_recommendations
    by_cases hnil :
        fs.foldl recommendation_step
          (if stroke_prob > 4/10 then
            ["Regular blood pressure monitoring", "Annual health checkups"]
          else []) = []
    · simp [hnil]
    · simp only [hnil, if_neg hnil, List.length_take]
      rcases List.exists_cons_of_ne_nil hnil with ⟨a, l, hl⟩
      rw [hl]
      simp
  · unfold get_recommendations
    simp [List.length_take]
  · intro hp hsmall
    unfold get_recommendations
    rw [if_neg (not_lt.mpr hp)]
    simp only [foldl_recommendation_step_small fs [] hsmall]
    rfl

/-- C8 witness: the theorem applied at probability `0` and the empty
factor list. -/
theorem get_recommendations_spec_witness :
    get_recommendations 0 [] =
      ["Maintain current healthy lifestyle",
       "Regular exercise and balanced diet"] ∧
    1 ≤ (get_recommendations 0 []).length ∧
    (get_recommendations 0 []).length ≤ 5 :=
  ⟨(get_recommendations_spec 0 []).2.2 (by norm_num) (by simp),
    (get_recommendations_spec 0 []).1, (get_recommendations_spec 0 []).2.1⟩

/-- A concrete prediction row used to exercise the store operations. -/
def exRow : PredRow :=
  { patient_id := "PATIENT_20240101000000", timestamp := "2024-01-01T00:00:00",
    gender := "Male", age := 70, hypertension := 1, heart_disease := 0,
    ever_married := "Yes", work_type := "Private", residence_type := "Urban",
    avg_glucose_level := 150, bmi := some 32, smoking_status := "smokes",
    prediction := 1, stroke_probability := 7/10, no_stroke_probability := 3/10,
    risk_level := "High", confidence := 70, notes := "" }

/-- A concrete risk factor used to exercise the store operations. -/
def exFactor : Factor :=
  { name := "Age", value := .num 70, contribution := 40/100, unit := "years",
    risk_category := "High" }

/-- A concrete empty database state. -/
def exDB : DB := { predictions := [], risk_factors := [], next_id := 1 }

/-- A failing child-row insert aborts the whole factor-insert loop. -/
theorem insert_factor_rows_eq_none (pid : ℕ) (fs : List Factor)
    (childOk : ℕ → Bool) (k i : ℕ) (hi : i < fs.length)
    (hfail : childOk (k + i) = false) :
    insert_factor_rows pid fs childOk k = none := by
  induction fs generalizing k i with
  | nil => simp at hi
  | cons f fs ih =>
    cases i with
    | zero =>
      rw [Nat.add_zero] at hfail
      unfold insert_factor_rows
      rw [hfail]
      simp
    | succ j =>
      unfold insert_factor_rows
      by_cases hk : childOk k = true
      · have hj : j < fs.length := by simpa using hi
        have hshift : childOk (k + 1 + j) = false := by
          rw [show k + 1 + j = k + (j + 1) from by omega]
          exact hfail
        rw [hk, ih (k + 1) j hj hshift]
        simp
      · rw [Bool.not_eq_true] at hk
        rw [hk]
        simp

/-- C3: the record-store append is all-or-nothing. If any child risk-factor
insert fails, `save_prediction_to_db` leaves the database exactly as it
was (zero rows committed for the attempt, including the parent row) and
returns no generated id. -/
theorem save_prediction_to_db_atomic (db : DB) (parentOk : Bool)
    (childOk : ℕ → Bool) (row : PredRow) (factors : List Factor) (i : ℕ)
    (hi : i < factors.length) (hfail : childOk i = false) :
    save_prediction_to_db db parentOk childOk row factors = (db, none, none) := by
  unfold save_prediction_to_db
  by_cases hp : parentOk = true
  · rw [hp, if_pos rfl,
      insert_factor_rows_eq_none db.next_id factors childOk 0 i hi
        (by simpa using hfail)]
  · rw [Bool.not_eq_true] at hp
    rw [hp]
    simp

/-- C3 witness: the theorem applied at a concrete database, row, factor
list and a child insert that fails. -/
theorem save_prediction_to_db_atomic_witness :
    0 < ([exFactor] : List Factor).length ∧
    (fun _ : ℕ => false) 0 = false ∧
    save_prediction_to_db exDB true (fun _ => false) exRow [exFactor] =
      (exDB, none, none) :=
  ⟨by simp, rfl,
    save_prediction_to_db_atomic exDB true (fun _ => false) exRow [exFactor] 0
      (by simp) rfl⟩

/-- C2 (amended): when the store append fails, the `/predict` handler still
returns the prediction response, but with the database fields absent:
`saved_to_database` is not set at all (it is only set, to `true`, on a
successful save with a truthy id). -/
theorem predict_db_step_on_failure (db : DB) (parentOk : Bool)
    (childOk : ℕ → Bool) (row : PredRow) (factors : List Factor) :
    ((save_prediction_to_db db parentOk childOk row factors).2.1 = none →
      predict_db_step db parentOk childOk row factors =
        ((save_prediction_to_db db parentOk childOk row factors).1,
          ⟨none, none, none⟩)) ∧
    (∀ pid : ℕ, pid ≠ 0 →
      (save_prediction_to_db db parentOk childOk row factors).2.1 = some pid →
      (predict_db_step db parentOk childOk row factors).2.saved_to_database =
        some true) := by
  constructor
  · intro hfail
    unfold predict_db_step
    rcases hsave : save_prediction_to_db db parentOk childOk row factors with
      ⟨db2, pidOpt, patid⟩
    rw [hsave] at hfail
    simp only at hfail
    subst hfail
    rfl
  · intro pid hpid hsome
    unfold predict_db_step
    rcases hsave : save_prediction_to_db db parentOk childOk row factors with
      ⟨db2, pidOpt, patid⟩
    rw [hsave] at hsome
    simp only at hsome
    subst hsome
    simp [hpid]

/-- C2 witness: the failure branch of the theorem applied at a concrete
failing append. -/
theorem predict_db_step_on_failure_witness :
    predict_db_step exDB true (fun _ => false) exRow [exFactor] =
      (exDB, ⟨none, none, none⟩) := by
  have h :=
    (predict_db_step_on_failure exDB true (fun _ => false) exRow [exFactor]).1
      rfl
  rw [h]
  rfl

/-- C2 counterexample: on a failing append the response does not carry
`saved_to_database: false` — the field is absent (`none`), so the claim
as stated is false at this input. -/
theorem predict_db_step_saved_flag_counterexample :
    (save_prediction_to_db exDB true (fun _ => false) exRow
      [exFactor]).2.1 = none ∧
    (predict_db_step exDB true (fun _ => false) exRow
      [exFactor]).2.saved_to_database = none ∧
    (predict_db_step exDB true (fun _ => false) exRow
      [exFactor]).2.saved_to_database ≠ some false := by
  refine ⟨rfl, rfl, ?_⟩
  intro h
  rw [show (predict_db_step exDB true (fun _ => false) exRow
    [exFactor]).2.saved_to_database = none from rfl] at h
  exact Option.noConfusion h

/-- C6: the global `high_risk_patients` count counts exactly the rows with
`risk_level ∈ {High, Very High}` and `stroke_probability > 0.5`; it never
exceeds the count by risk level alone, and is strictly smaller whenever
some High/Very High row has probability at most `0.5`. -/
theorem high_risk_patients_spec (rows : List PredRow) :
    high_risk_patients rows =
      (rows.filter (fun r =>
        isHighLevel r && decide ((1:ℚ)/2 < r.stroke_probability))).length ∧
    high_risk_patients rows ≤ rows.countP isHighLevel ∧
    (∀ r ∈ rows, isHighLevel r = true → r.stroke_probability ≤ 1/2 →
      high_risk_patients rows < rows.countP isHighLevel) := by
  refine ⟨List.countP_eq_length_filter _ _, ?_, ?_⟩
  · exact List.countP_mono_left (fun r _ h => by
      rw [Bool.and_eq_true] at h
      exact h.1)
  · intro r hr hhigh hle
    exact countP_lt_countP rows _ isHighLevel
      (fun x _ hx => by rw [Bool.and_eq_true] at hx; exact hx.1)
      r hr hhigh
      (by rw [hhigh, Bool.true_and]
          exact decide_eq_false (not_lt.mpr hle))

/-- A High-risk-level row whose stored probability is only `0.3`. -/
def exRowHighLowProb : PredRow := { exRow with stroke_probability := 3/10 }

/-- C6 witness: the strict inequality at a concrete store holding one
High row with probability `0.3`. -/
theorem high_risk_patients_spec_witness :
    isHighLevel exRowHighLowProb = true ∧
    exRowHighLowProb.stroke_probability ≤ 1/2 ∧
    high_risk_patients [exRowHighLowProb] <
      ([exRowHighLowProb] : List PredRow).countP isHighLevel :=
  ⟨rfl, by norm_num [exRowHighLowProb, exRow],
    (high_risk_patients_spec [exRowHighLowProb]).2.2 exRowHighLowProb
      (List.mem_singleton.mpr rfl) rfl
      (by norm_num [exRowHighLowProb, exRow])⟩

/-- C9: the SQL age bucketing uses half-open intervals with each boundary
age in the higher bucket, and `age_distribution` lists the buckets in
their defined sequence (the `ORDER BY CASE` index), not lexically. -/
theorem age_distribution_spec (rows : List PredRow) :
    (∀ a : ℚ,
      (ageGroup a = "Under 30" ↔ a < 30) ∧
      (ageGroup a = "30-49" ↔ 30 ≤ a ∧ a < 50) ∧
      (ageGroup a = "50-64" ↔ 50 ≤ a ∧ a < 65) ∧
      (ageGroup a = "65+" ↔ 65 ≤ a)) ∧
    (age_distribution rows).Pairwise
      (fun x y => ageGroupOrder x.1 < ageGroupOrder y.1) := by
  constructor
  · intro a
    unfold ageGroup
    split_ifs <;> refine ⟨?_, ?_, ?_, ?_⟩ <;> simp <;>
      first
      | linarith
      | (constructor <;> linarith)
      | (intro hx; linarith)
  · unfold age_distribution
    apply List.Pairwise.sublist (List.filter_sublist _)
    simp [List.pairwise_cons, ageGroupOrder]

/-- C10: `gender_risk_stats` has entries for exactly Male and Female; a
row of any other gender changes neither entry, while it still counts in
`total_predictions` and in `gender_distribution`. -/
theorem gender_risk_stats_keys (rows : List PredRow) (r : PredRow)
    (hm : r.gender ≠ "Male") (hf : r.gender ≠ "Female") :
    (gender_risk_stats rows).map Prod.fst = ["Male", "Female"] ∧
    gender_risk_stats (r :: rows) = gender_risk_stats rows ∧
    total_predictions (r :: rows) = total_predictions rows + 1 ∧
    gender_distribution (r :: rows) r.gender =
      gender_distribution rows r.gender + 1 := by
  have hstats : ∀ g : String, r.gender ≠ g →
      gender_stats_for (r :: rows) g = gender_stats_for rows g := by
    intro g hg
    have hb : (r.gender == g) = false := beq_eq_false_iff_ne.mpr hg
    unfold gender_stats_for gender_total gender_high_risk
    rw [List.filter_cons, if_neg (by rw [hb]; simp)]
  refine ⟨rfl, ?_, rfl, ?_⟩
  · unfold gender_risk_stats
    rw [hstats "Male" hm, hstats "Female" hf]
  · unfold gender_distribution
    rw [List.countP_cons, if_pos (by simp)]

/-- A prediction row whose gender is Other. -/
def exRowOther : PredRow := { exRow with gender := "Other" }

/-- C10 witness: the theorem applied to an Other-gender row over the
empty store. -/
theorem gender_risk_stats_keys_witness :
    gender_risk_stats [exRowOther] = gender_risk_stats [] ∧
    total_predictions [exRowOther] = total_predictions [] + 1 ∧
    gender_distribution [exRowOther] exRowOther.gender =
      gender_distribution [] exRowOther.gender + 1 :=
  ⟨(gender_risk_stats_keys [] exRowOther (by decide) (by decide)).2.1,
    (gender_risk_stats_keys [] exRowOther (by decide) (by decide)).2.2.1,
    (gender_risk_stats_keys [] exRowOther (by decide) (by decide)).2.2.2⟩

/-- Filtering by gender commutes with rewriting the stored probability. -/
theorem filter_gender_map_mapProb (f : ℚ → ℚ) (g : String)
    (l : List PredRow) :
    (l.map (mapProb f)).filter (fun r => r.gender == g) =
      (l.filter (fun r => r.gender == g)).map (mapProb f) := by
  induction l with
  | nil => rfl
  | cons a l ih =>
    simp only [List.map_cons, List.filter_cons]
    have hg : (mapProb f a).gender = a.gender := rfl
    rw [hg]
    split_ifs
    · rw [List.map_cons, ih]
    · exact ih

/-- The per-gender total ignores the stored probabilities. -/
theorem gender_total_map_mapProb (f : ℚ → ℚ) (g : String)
    (l : List PredRow) :
    gender_total (l.map (mapProb f)) g = gender_total l g := by
  unfold gender_total
  rw [filter_gender_map_mapProb, List.length_map]

/-- The per-gender high-risk count ignores the stored probabilities. -/
theorem gender_high_risk_map_mapProb (f : ℚ → ℚ) (g : String)
    (l : List PredRow) :
    gender_high_risk (l.map (mapProb f)) g = gender_high_risk l g := by
  unfold gender_high_risk
  rw [filter_gender_map_mapProb, List.map_map]
  rfl

/-- The per-gender high-risk count is bounded by the per-gender total. -/
theorem gender_high_risk_le_total (rows : List PredRow) (g : String) :
    gender_high_risk rows g ≤ gender_total rows g := by
  unfold gender_high_risk gender_total
  rw [sum_map_ite_eq_countP]
  exact List.countP_le_length _

/-- C7 (amended): the per-gender high-risk count conditions only on
`risk_level ∈ {High, Very High}` (it is invariant under any change of the
stored probabilities), and `risk_percentage` equals
`100 × high_risk / total` rounded to two decimal places, equals `0` when
the gender's total is `0`, and always lies in `[0, 100]`. -/
theorem gender_risk_stats_spec (rows : List PredRow) (g : String) :
    gender_high_risk rows g =
      rows.countP (fun r => isHighLevel r && (r.gender == g)) ∧
    (∀ f : ℚ → ℚ,
      gender_stats_for (rows.map (mapProb f)) g = gender_stats_for rows g) ∧
    (gender_total rows g = 0 → (gender_stats_for rows g).risk_percentage = 0) ∧
    0 ≤ (gender_stats_for rows g).risk_percentage ∧
    (gender_stats_for rows g).risk_percentage ≤ 100 ∧
    (gender_stats_for rows g).risk_percentage =
      pyRound2 (if 0 < gender_total rows g then
        ((gender_high_risk rows g : ℚ) / (gender_total rows g : ℚ)) * 100
      else 0) := by
  have harg : ∀ x : ℚ, x = (if 0 < gender_total rows g then
      (if 0 < gender_high_risk rows g then
        ((gender_high_risk rows g : ℚ) / (gender_total rows g : ℚ)) * 100
      else 0) else 0) → 0 ≤ x ∧ x ≤ 100 := by
    intro x hx
    subst hx
    split_ifs with ht hh
    · have hle := gender_high_risk_le_total rows g
      have htq : (0 : ℚ) < (gender_total rows g : ℚ) := by exact_mod_cast ht
      have hleq : ((gender_high_risk rows g : ℚ)) ≤ (gender_total rows g : ℚ) := by
        exact_mod_cast hle
      constructor
      · positivity
      · have hdiv : ((gender_high_risk rows g : ℚ)) /
            (gender_total rows g : ℚ) ≤ 1 := by
          rw [div_le_one htq]
          exact hleq
        linarith
    · exact ⟨le_refl 0, by norm_num⟩
    · exact ⟨le_refl 0, by norm_num⟩
  refine ⟨?_, ?_, ?_, ?_, ?_, ?_⟩
  · unfold gender_high_risk
    rw [sum_map_ite_eq_countP, List.countP_filter]
  · intro f
    unfold gender_stats_for
    rw [gender_total_map_mapProb, gender_high_risk_map_mapProb]
  · intro ht
    unfold gender_stats_for
    rw [ht]
    simp [pyRound2_zero]
  · unfold gender_stats_for
    exact pyRound2_nonneg _ (harg _ rfl).1
  · unfold gender_stats_for
    exact pyRound2_le_100 _ (harg _ rfl).2
  · unfold gender_stats_for
    split_ifs with ht hh
    · rfl
    · have hz : gender_high_risk rows g = 0 := by omega
      rw [hz]
      norm_num
    · rfl

/-- C7 witness: the theorem applied at a concrete store (one Male row)
and the gender Male. -/
theorem gender_risk_stats_spec_witness :
    gender_stats_for ([exRow].map (mapProb (fun _ => 0))) "Male" =
      gender_stats_for [exRow] "Male" ∧
    0 ≤ (gender_stats_for [exRow] "Male").risk_percentage ∧
    (gender_stats_for [exRow] "Male").risk_percentage ≤ 100 :=
  ⟨(gender_risk_stats_spec [exRow] "Male").2.1 (fun _ => 0),
    (gender_risk_stats_spec [exRow] "Male").2.2.2.1,
    (gender_risk_stats_spec [exRow] "Male").2.2.2.2.1⟩

/-- A Male, Very Low risk prediction row. -/
def exRowVeryLow : PredRow :=
  { exRow with
    risk_level := "Very Low"
    stroke_probability := 1/10
    no_stroke_probability := 9/10 }

/-- A store with three Male rows of which exactly one is high risk. -/
def exRows3 : List PredRow := [exRow, exRowVeryLow, exRowVeryLow]

/-- C7 counterexample: for a gender with 3 rows and 1 high-risk row the
stored `risk_percentage` is the rounded `33.33`, not the exact
`100 × high_risk / total = 100/3`, so the claim's exact-equality reading
is false at this input. -/
theorem gender_risk_percentage_rounding_counterexample :
    gender_total exRows3 "Male" = 3 ∧
    gender_high_risk exRows3 "Male" = 1 ∧
    (gender_stats_for exRows3 "Male").risk_percentage = 3333/100 ∧
    (gender_stats_for exRows3 "Male").risk_percentage ≠
      (gender_high_risk exRows3 "Male" : ℚ) /
        (gender_total exRows3 "Male" : ℚ) * 100 := by
  have h1 : gender_total exRows3 "Male" = 3 := rfl
  have h2 : gender_high_risk exRows3 "Male" = 1 := rfl
  have h3 : (gender_stats_for exRows3 "Male").risk_percentage = 3333/100 := by
    show pyRound2 _ = 3333/100
    rw [h1, h2]
    norm_num [pyRound2, roundHalfEven]
  refine ⟨h1, h2, h3, ?_⟩
  rw [h1, h2, h3]
  norm_num

end StrokeApp
